import Mathlib

/-!
Verification of the RFP proposal-analysis backend.

This file gives a shallow embedding of the scoring, parsing and session
logic of the backend services (`mismatch_detector.py`, `workflow.py`,
`rfp_optimization_agent.py`) and proves the behavioural properties stated
in the specification against that embedding.

Modelling conventions:
* Python numbers (floats produced by `/`) are modelled as exact rationals.
* Python `int(...)` (truncation toward zero) is modelled by `pyInt`.
* Python strings are modelled by Lean `String`; `str.lower()` and the
  substring operator `in` are modelled by `pyLower` and `py_in`, which
  handle the ASCII range (all keyword sets in the source are ASCII).
* External collaborators (LLM generation, vector search) are passed in as
  function arguments; fallible generation returns `Except`.
-/

/-- Python `int()` applied to a real number: truncation toward zero. -/
def pyInt (q : ℚ) : ℤ := if 0 ≤ q then ⌊q⌋ else ⌈q⌉

/-- ASCII lower-casing of one character (model of `str.lower` per char). -/
def lowerChar (c : Char) : Char :=
  if 65 ≤ c.toNat ∧ c.toNat ≤ 90 then Char.ofNat (c.toNat + 32) else c

/-- Model of Python `str.lower()` (ASCII range). -/
def pyLower (s : String) : String := ⟨s.data.map lowerChar⟩

/-- Boolean prefix test on character lists. -/
def isPrefixB : List Char → List Char → Bool
  | [], _ => true
  | _ :: _, [] => false
  | a :: as, b :: bs => a == b && isPrefixB as bs

/-- Boolean substring test on character lists. -/
def hasSubstr (hay needle : List Char) : Bool :=
  isPrefixB needle hay ||
    match hay with
    | [] => false
    | _ :: rest => hasSubstr rest needle

/-- Model of Python's substring operator `needle in hay`. -/
def py_in (needle hay : String) : Bool := hasSubstr hay.data needle.data

/-!  ## Data model (`backend/models/schemas.py`)  -/

/-- `RFPMismatch` of `schemas.py`: one typed, severity-ranked discrepancy. -/
structure RFPMismatch where
  type : String
  severity : String
  message : String
  rfp_requirement : String
  proposal_value : String
  impact : String
deriving Repr, DecidableEq

/-- `RFPAlignment` of `schemas.py`: the full alignment analysis result. -/
structure RFPAlignment where
  overall_alignment_score : ℤ
  budget_alignment : ℤ
  timeline_alignment : ℤ
  technical_alignment : ℤ
  scope_alignment : ℤ
  mismatches : List RFPMismatch
  alignment_summary : String
deriving Repr, DecidableEq

/-- The fields of the RFP / proposal record dicts read by the detector
(`rfp_data.get('budget', 0)`, `.get('timeline_months', 0)`,
`.get('content', '')`); the `.get` defaults are modelled by the record
being total. -/
structure DocData where
  budget : ℚ
  timeline_months : ℚ
  content : String
deriving Repr, DecidableEq

/-!  ## Mismatch detector (`backend/services/mismatch_detector.py`)  -/

/-- Budget sub-scorer `_analyze_budget_alignment`.  The unused
`_extract_budget_range` call on the RFP content (its result is never read)
is omitted. -/
def _analyze_budget_alignment (rfp_data proposal_data : DocData) :
    ℤ × List RFPMismatch :=
  let rfp_budget := rfp_data.budget
  let proposal_budget := proposal_data.budget
  if rfp_budget = 0 ∨ proposal_budget = 0 then
    (50, [])
  else
    let budget_ratio := proposal_budget / rfp_budget
    if budget_ratio > 1.2 then
      let severity := if budget_ratio > 1.5 then "high" else "medium"
      (max 20 (100 - pyInt ((budget_ratio - 1) * 100)),
       [{ type := "budget", severity := severity,
          message := "Proposal budget (" ++ toString proposal_budget ++
            ") exceeds RFP budget (" ++ toString rfp_budget ++ ")",
          rfp_requirement := "Budget: " ++ toString rfp_budget,
          proposal_value := "Budget: " ++ toString proposal_budget,
          impact := "May require budget reallocation or scope reduction" }])
    else if budget_ratio < 0.5 then
      (max 60 (100 - pyInt ((1 - budget_ratio) * 50)),
       [{ type := "budget", severity := "medium",
          message := "Proposal budget (" ++ toString proposal_budget ++
            ") is significantly lower than RFP budget (" ++ toString rfp_budget ++ ")",
          rfp_requirement := "Budget: " ++ toString rfp_budget,
          proposal_value := "Budget: " ++ toString proposal_budget,
          impact := "May indicate missing scope or unrealistic pricing" }])
    else
      (100, [])

/-- Timeline sub-scorer `_analyze_timeline_alignment`. -/
def _analyze_timeline_alignment (rfp_data proposal_data : DocData) :
    ℤ × List RFPMismatch :=
  let rfp_timeline := rfp_data.timeline_months
  let proposal_timeline := proposal_data.timeline_months
  if rfp_timeline = 0 ∨ proposal_timeline = 0 then
    (50, [])
  else
    let timeline_ratio := proposal_timeline / rfp_timeline
    if timeline_ratio > 1.3 then
      let severity := if timeline_ratio > 1.8 then "high" else "medium"
      (max 30 (100 - pyInt ((timeline_ratio - 1) * 80)),
       [{ type := "timeline", severity := severity,
          message := "Proposal timeline (" ++ toString proposal_timeline ++
            " months) exceeds RFP timeline (" ++ toString rfp_timeline ++ " months)",
          rfp_requirement := "Timeline: " ++ toString rfp_timeline ++ " months",
          proposal_value := "Timeline: " ++ toString proposal_timeline ++ " months",
          impact := "May delay project delivery and impact business objectives" }])
    else if timeline_ratio < 0.6 then
      (max 70 (100 - pyInt ((1 - timeline_ratio) * 40)),
       [{ type := "timeline", severity := "medium",
          message := "Proposal timeline (" ++ toString proposal_timeline ++
            " months) is significantly shorter than RFP timeline (" ++
            toString rfp_timeline ++ " months)",
          rfp_requirement := "Timeline: " ++ toString rfp_timeline ++ " months",
          proposal_value := "Timeline: " ++ toString proposal_timeline ++ " months",
          impact := "May indicate unrealistic timeline or missing project phases" }])
    else
      (100, [])

/-- The fixed technical keyword taxonomy of `_analyze_technical_alignment`,
in source (insertion) order. -/
def technical_keywords : List (String × List String) :=
  [("ai", ["ai", "artificial intelligence", "machine learning", "ml", "neural network"]),
   ("cloud", ["cloud", "aws", "azure", "gcp", "kubernetes", "docker"]),
   ("api", ["api", "rest", "graphql", "microservices", "integration"]),
   ("database", ["database", "sql", "nosql", "mongodb", "postgresql", "mysql"]),
   ("security", ["security", "encryption", "authentication", "authorization", "ssl", "tls"]),
   ("mobile", ["mobile", "ios", "android", "react native", "flutter"]),
   ("web", ["web", "frontend", "backend", "react", "angular", "vue"])]

/-- A category is missing when some keyword matches the (lowercased) RFP
content but no keyword matches the proposal content. -/
def categoryMissing (rfp_content proposal_content : String)
    (keywords : List String) : Bool :=
  keywords.any (fun k => py_in k rfp_content) &&
    !(keywords.any (fun k => py_in k proposal_content))

/-- The mismatch record built per missing technical category. -/
def technicalMismatch (category : String) : RFPMismatch :=
  { type := "technical", severity := "high",
    message := "RFP requires " ++ category ++
      " capabilities but proposal doesn't address this requirement",
    rfp_requirement := "Technical requirement: " ++ category,
    proposal_value := "Not mentioned in proposal",
    impact := "Missing " ++ category ++ " implementation may affect project success" }

/-- Technical sub-scorer `_analyze_technical_alignment`. -/
def _analyze_technical_alignment (rfp_data proposal_data : DocData) :
    ℤ × List RFPMismatch :=
  let rfp_content := pyLower rfp_data.content
  let proposal_content := pyLower proposal_data.content
  let missing_requirements := (technical_keywords.filter
    (fun ck => categoryMissing rfp_content proposal_content ck.2)).map (·.1)
  let mismatches := missing_requirements.map technicalMismatch
  let alignment_score : ℤ :=
    if missing_requirements.isEmpty then 100
    else max 20 (100 - (missing_requirements.length : ℤ) * 20)
  (alignment_score, mismatches)

/-- The fixed scope keyword taxonomy of `_analyze_scope_alignment`. -/
def scope_keywords : List (String × List String) :=
  [("deliverables", ["deliverable", "delivery", "output", "result"]),
   ("phases", ["phase", "milestone", "stage", "iteration"]),
   ("support", ["support", "maintenance", "warranty", "training"]),
   ("documentation", ["documentation", "manual", "guide", "specification"]),
   ("testing", ["testing", "qa", "quality assurance", "validation"])]

/-- The mismatch record built per missing scope category. -/
def scopeMismatch (category : String) : RFPMismatch :=
  { type := "scope", severity := "medium",
    message := "RFP mentions " ++ category ++
      " but proposal doesn't clearly address this scope element",
    rfp_requirement := "Scope requirement: " ++ category,
    proposal_value := "Not clearly addressed in proposal",
    impact := "Unclear " ++ category ++ " scope may lead to project disputes" }

/-- Scope sub-scorer `_analyze_scope_alignment`. -/
def _analyze_scope_alignment (rfp_data proposal_data : DocData) :
    ℤ × List RFPMismatch :=
  let rfp_content := pyLower rfp_data.content
  let proposal_content := pyLower proposal_data.content
  let missing_scope := (scope_keywords.filter
    (fun ck => categoryMissing rfp_content proposal_content ck.2)).map (·.1)
  let mismatches := missing_scope.map scopeMismatch
  let alignment_score : ℤ :=
    if missing_scope.isEmpty then 100
    else max 40 (100 - (missing_scope.length : ℤ) * 15)
  (alignment_score, mismatches)

/-- The fixed score-band text of `_generate_alignment_summary`. -/
def summaryBand (overall : ℤ) : String :=
  if overall ≥ 90 then "Excellent alignment with RFP requirements."
  else if overall ≥ 75 then "Good alignment with RFP requirements."
  else if overall ≥ 60 then "Moderate alignment with some concerns."
  else if overall ≥ 40 then "Poor alignment with significant issues."
  else "Very poor alignment with major mismatches."

/-- `_generate_alignment_summary`: band text plus an appended count clause,
critical mismatches taking precedence over high ones. -/
def _generate_alignment_summary (overall : ℤ)
    (mismatches : List RFPMismatch) : String :=
  let summary := summaryBand overall
  let critical_mismatches := mismatches.filter (fun m => m.severity == "critical")
  let high_mismatches := mismatches.filter (fun m => m.severity == "high")
  if !critical_mismatches.isEmpty then
    summary ++ " " ++ toString critical_mismatches.length ++ " critical issue(s) identified."
  else if !high_mismatches.isEmpty then
    summary ++ " " ++ toString high_mismatches.length ++ " high-priority issue(s) identified."
  else summary

/-- `analyze_proposal_alignment`: run the four sub-scorers, concatenate
their mismatches in order, truncate the mean of the four scores with
`int(...)`, and attach the generated summary. -/
def analyze_proposal_alignment (rfp_data proposal_data : DocData) : RFPAlignment :=
  let ba := _analyze_budget_alignment rfp_data proposal_data
  let ta := _analyze_timeline_alignment rfp_data proposal_data
  let tech := _analyze_technical_alignment rfp_data proposal_data
  let sa := _analyze_scope_alignment rfp_data proposal_data
  let mismatches := ba.2 ++ ta.2 ++ tech.2 ++ sa.2
  let overall_alignment :=
    pyInt (((ba.1 + ta.1 + tech.1 + sa.1 : ℤ) : ℚ) / 4)
  { overall_alignment_score := overall_alignment,
    budget_alignment := ba.1,
    timeline_alignment := ta.1,
    technical_alignment := tech.1,
    scope_alignment := sa.1,
    mismatches := mismatches,
    alignment_summary := _generate_alignment_summary overall_alignment mismatches }

/-!  ## JSON values (model of Python `json.loads` output)  -/

/-- JSON values as produced by `json.loads` (dicts as ordered key/value
lists, later duplicate keys shadowing earlier ones on lookup). -/
inductive JVal where
  | jnull : JVal
  | jbool : Bool → JVal
  | jnum : ℚ → JVal
  | jstr : String → JVal
  | jarr : List JVal → JVal
  | jobj : List (String × JVal) → JVal

/-- Skip JSON whitespace. -/
def skipWs : List Char → List Char
  | [] => []
  | c :: cs => if c = ' ' ∨ c = '\t' ∨ c = '\n' ∨ c = '\r' then skipWs cs else c :: cs

/-- ASCII decimal digit test. -/
def isDigitC (c : Char) : Bool := 48 ≤ c.toNat && c.toNat ≤ 57

/-- Accumulate decimal digits into a natural number. -/
def digitsToNat (acc : ℕ) : List Char → ℕ
  | [] => acc
  | c :: cs => digitsToNat (acc * 10 + (c.toNat - 48)) cs

/-- Value of one hex digit. -/
def hexVal (c : Char) : Option ℕ :=
  if 48 ≤ c.toNat ∧ c.toNat ≤ 57 then some (c.toNat - 48)
  else if 97 ≤ c.toNat ∧ c.toNat ≤ 102 then some (c.toNat - 87)
  else if 65 ≤ c.toNat ∧ c.toNat ≤ 70 then some (c.toNat - 55)
  else none

/-- Parse the body of a JSON string after the opening quote; `acc` holds
the already-read characters in reverse.  Surrogate-pair `\u` escapes are
decoded code-unit-wise. -/
def parseStringBody : List Char → List Char → Option (String × List Char)
  | acc, '"' :: rest => some (⟨acc.reverse⟩, rest)
  | acc, '\\' :: esc :: rest =>
    match esc with
    | '"' => parseStringBody ('"' :: acc) rest
    | '\\' => parseStringBody ('\\' :: acc) rest
    | '/' => parseStringBody ('/' :: acc) rest
    | 'b' => parseStringBody ('\x08' :: acc) rest
    | 'f' => parseStringBody ('\x0c' :: acc) rest
    | 'n' => parseStringBody ('\n' :: acc) rest
    | 'r' => parseStringBody ('\r' :: acc) rest
    | 't' => parseStringBody ('\t' :: acc) rest
    | 'u' =>
      match rest with
      | h1 :: h2 :: h3 :: h4 :: rest2 =>
        match hexVal h1, hexVal h2, hexVal h3, hexVal h4 with
        | some a, some b, some c, some d =>
          if ((a * 16 + b) * 16 + c) * 16 + d < 55296 then
            parseStringBody (Char.ofNat ((((a * 16 + b) * 16 + c) * 16 + d)) :: acc) rest2
          else none
        | _, _, _, _ => none
      | _ => none
    | _ => none
  | acc, c :: rest => parseStringBody (c :: acc) rest
  | _, [] => none

/-- Parse an optional fractional part. -/
def parseFrac (q : ℚ) (cs : List Char) : Option (ℚ × List Char) :=
  match cs with
  | '.' :: r =>
    let fs := r.takeWhile isDigitC
    if fs.isEmpty then none
    else some (q + (digitsToNat 0 fs : ℚ) / (10 : ℚ) ^ fs.length, r.drop fs.length)
  | _ => some (q, cs)

/-- Parse an exponent's sign and digits, scaling `q`. -/
def parseExpAux (q : ℚ) (cs : List Char) : Option (ℚ × List Char) :=
  let signAndRest : Bool × List Char :=
    match cs with
    | '-' :: r => (true, r)
    | '+' :: r => (false, r)
    | _ => (false, cs)
  let es := signAndRest.2.takeWhile isDigitC
  if es.isEmpty then none
  else
    let e := digitsToNat 0 es
    some (if signAndRest.1 then q / (10 : ℚ) ^ e else q * (10 : ℚ) ^ e,
      signAndRest.2.drop es.length)

/-- Parse an optional exponent part. -/
def parseExp (q : ℚ) (cs : List Char) : Option (ℚ × List Char) :=
  match cs with
  | 'e' :: r => parseExpAux q r
  | 'E' :: r => parseExpAux q r
  | _ => some (q, cs)

/-- Parse a JSON number. -/
def parseNumber (cs : List Char) : Option (ℚ × List Char) :=
  let signAndRest : Bool × List Char :=
    match cs with
    | '-' :: rest => (true, rest)
    | _ => (false, cs)
  let ds := signAndRest.2.takeWhile isDigitC
  if ds.isEmpty then none
  else do
    let fr ← parseFrac (digitsToNat 0 ds : ℚ) (signAndRest.2.drop ds.length)
    let ex ← parseExp fr.1 fr.2
    some (if signAndRest.1 then -ex.1 else ex.1, ex.2)

mutual

/-- Fuel-driven recursive-descent JSON value parser. -/
def parseVal : ℕ → List Char → Option (JVal × List Char)
  | 0, _ => none
  | n + 1, cs =>
    match skipWs cs with
    | 'n' :: 'u' :: 'l' :: 'l' :: rest => some (.jnull, rest)
    | 't' :: 'r' :: 'u' :: 'e' :: rest => some (.jbool true, rest)
    | 'f' :: 'a' :: 'l' :: 's' :: 'e' :: rest => some (.jbool false, rest)
    | '"' :: rest =>
      match parseStringBody [] rest with
      | some sr => some (.jstr sr.1, sr.2)
      | none => none
    | '[' :: rest =>
      match skipWs rest with
      | ']' :: rest2 => some (.jarr [], rest2)
      | _ => parseArrItems n (skipWs rest) []
    | '{' :: rest =>
      match skipWs rest with
      | '}' :: rest2 => some (.jobj [], rest2)
      | _ => parseObjItems n (skipWs rest) []
    | cs2 =>
      match parseNumber cs2 with
      | some qr => some (.jnum qr.1, qr.2)
      | none => none

/-- Parse the items of a JSON array after the opening bracket. -/
def parseArrItems : ℕ → List Char → List JVal → Option (JVal × List Char)
  | 0, _, _ => none
  | n + 1, cs, acc =>
    match parseVal n cs with
    | none => none
    | some vr =>
      match skipWs vr.2 with
      | ',' :: rest2 => parseArrItems n rest2 (vr.1 :: acc)
      | ']' :: rest2 => some (.jarr (vr.1 :: acc).reverse, rest2)
      | _ => none

/-- Parse the members of a JSON object after the opening brace. -/
def parseObjItems : ℕ → List Char → List (String × JVal) → Option (JVal × List Char)
  | 0, _, _ => none
  | n + 1, cs, acc =>
    match skipWs cs with
    | '"' :: rest =>
      match parseStringBody [] rest with
      | none => none
      | some kr =>
        match skipWs kr.2 with
        | ':' :: rest3 =>
          match parseVal n rest3 with
          | none => none
          | some vr =>
            match skipWs vr.2 with
            | ',' :: rest5 => parseObjItems n rest5 ((kr.1, vr.1) :: acc)
            | '}' :: rest5 => some (.jobj ((kr.1, vr.1) :: acc).reverse, rest5)
            | _ => none
        | _ => none
    | _ => none

end

/-- Model of `json.loads` on a character list: parse one value and require
only whitespace to remain.  The fuel `2 * length + 4` dominates the number
of parser steps, each of which consumes input. -/
def json_loads (s : List Char) : Option JVal :=
  match parseVal (2 * s.length + 4) s with
  | some vr => if (skipWs vr.2).isEmpty then some vr.1 else none
  | none => none

/-- Model of `re.search(r'\x7b.*\x7d', text, re.DOTALL)`: the maximal
brace-delimited substring, from the first opening brace to the last
closing brace. -/
def extractBraced (s : List Char) : Option (List Char) :=
  match s.findIdx? (· = '{') with
  | none => none
  | some i =>
    match s.reverse.findIdx? (· = '}') with
    | none => none
    | some jr =>
      let j := s.length - 1 - jr
      if i < j then some ((s.drop i).take (j - i + 1)) else none

/-- Dict lookup with Python semantics: a later duplicate key wins. -/
def jlookup (fields : List (String × JVal)) (key : String) : Option JVal :=
  match fields with
  | [] => none
  | kv :: rest =>
    match jlookup rest key with
    | some r => some r
    | none => if kv.1 = key then some kv.2 else none

/-- `parsed[key]` for an object value. -/
def jget (j : JVal) (key : String) : Option JVal :=
  match j with
  | .jobj fields => jlookup fields key
  | _ => none

/-- The `'proposals' in parsed and isinstance(parsed['proposals'], list)`
check: the proposals list, when present. -/
def jproposals (j : JVal) : Option (List JVal) :=
  match jget j "proposals" with
  | some (.jarr xs) => some xs
  | _ => none

/-!  ## Proposal records and the structured-analysis parser
(`backend/services/workflow.py`)  -/

/-- The uploaded-proposal record fields used by the workflow
(`proposal['id']`, `['title']`, `['content']`, `['budget']`,
`['timeline_months']`, `['category']`). -/
structure Proposal where
  id : String
  title : String
  content : String
  budget : ℚ
  timeline_months : ℚ
  category : String
deriving Repr, DecidableEq

/-- Python `s[:n]` character slicing. -/
def pySlice (s : String) (n : ℕ) : String := ⟨s.data.take n⟩

/-- One synthesized proposal entry of `_create_fallback_structure`:
`base_score = 85 + (i * 3) % 15`, scores derived from it, vendor name from
the title.  The values are encoded as the JSON object the Python dict
literal denotes. -/
def fallback_proposal_entry (i : ℕ) (proposal : Proposal) : JVal :=
  let base_score : ℤ := 85 + ((i : ℤ) * 3) % 15
  let vendor_stripped := (proposal.title.replace "Proposal: " "").trim
  let vendor_name :=
    if vendor_stripped = "" then "Vendor " ++ toString (i + 1) else vendor_stripped
  .jobj [
    ("proposal_id", .jstr proposal.id),
    ("vendor_name", .jstr vendor_name),
    ("overall_score", .jnum (base_score : ℚ)),
    ("budget_score", .jnum ((max 70 (base_score - 5) : ℤ) : ℚ)),
    ("technical_score", .jnum ((min 100 (base_score + 5) : ℤ) : ℚ)),
    ("timeline_score", .jnum (base_score : ℚ)),
    ("strengths", .jarr [.jstr "Strong technical approach",
      .jstr "Competitive pricing", .jstr "Proven track record"]),
    ("concerns", .jarr [.jstr "Timeline may be aggressive",
      .jstr "Limited local presence"]),
    ("risk_assessment",
      .jstr "Moderate risk level with standard mitigation strategies required"),
    ("strategic_alignment",
      .jstr "Good alignment with organizational objectives"),
    ("budget_analysis", .jstr ("Budget of $" ++ toString proposal.budget ++
      " appears competitive for the scope")),
    ("timeline_analysis", .jstr ("Proposed timeline of " ++
      toString proposal.timeline_months ++ " months is feasible")),
    ("contact_info", .jobj [("email", .jstr "contact@vendor.com"),
      ("phone", .jstr "+1 (555) 123-4567")])]

/-- `_create_fallback_structure`: one synthesized entry per input proposal
in input order, plus the fixed summary and the rank-1 recommendation
referencing the first proposal's id (or `""` when there is none). -/
def _create_fallback_structure (analysis_text : String)
    (proposals : List Proposal) : JVal :=
  let _ := analysis_text
  let structured_proposals :=
    proposals.enum.map (fun ip => fallback_proposal_entry ip.1 ip.2)
  .jobj [
    ("proposals", .jarr structured_proposals),
    ("executive_summary",
      .jstr "Comprehensive analysis completed with competitive proposals received"),
    ("recommendations", .jarr [.jobj [
      ("rank", .jnum 1),
      ("proposal_id", .jstr (match proposals with | [] => "" | p :: _ => p.id)),
      ("reasoning", .jstr "Best overall value proposition and technical capability")]])]

/-- `_parse_structured_analysis`: extract the maximal brace-delimited
substring, decode it, and return the decoded object when it carries a
`proposals` list; otherwise synthesize the fallback structure.  The
terminal `except Exception: return None` branch of the source is
unreachable in this model (the decoded value of a brace-delimited match is
always a dict), so the result is total. -/
def _parse_structured_analysis (analysis_text : String)
    (proposals : List Proposal) : JVal :=
  match extractBraced analysis_text.data with
  | some json_str =>
    match json_loads json_str with
    | some parsed_analysis =>
      if (jproposals parsed_analysis).isSome then parsed_analysis
      else _create_fallback_structure analysis_text proposals
    | none => _create_fallback_structure analysis_text proposals
  | none => _create_fallback_structure analysis_text proposals

/-- The success condition of the parser, for stating its specification:
the decoded object of the maximal brace-delimited substring, provided it
carries a `proposals` list. -/
def decodedProposalsJson (analysis_text : String) : Option JVal :=
  match extractBraced analysis_text.data with
  | some sub =>
    match json_loads sub with
    | some parsed => if (jproposals parsed).isSome then some parsed else none
    | none => none
  | none => none

/-!  ## Session state machine (`backend/services/workflow.py`)  -/

/-- A document returned by the vector-store similarity search, with the
metadata fields read by the interactive loop. -/
structure RetrievedDoc where
  page_content : String
  title : String
  budget : ℚ
  timeline_months : ℚ

/-- One entry of the conversation history. -/
structure ConversationEntry where
  timestamp : String
  question : String
  response : String
  relevant_proposals : List String
deriving Repr, DecidableEq

/-- `ProposalAgentState`: the workflow state dict.  The vector store is
modelled by the search function it provides (`None` before setup). -/
structure ProposalAgentState where
  proposals : List Proposal
  vector_store : Option (String → List RetrievedDoc)
  current_analysis : String
  structured_analysis : Option JVal
  user_question : String
  conversation_history : List ConversationEntry
  continue_conversation : Bool
  error_message : String
  session_id : String

/-- The question prompt of `question_template.invoke` (the surrounding
template text with the three substituted slots). -/
def question_template (user_question context_info previous_analysis : String) : String :=
  "You are an expert proposal analyst. A user has asked the following question\nabout the proposals: \"" ++
    user_question ++
    "\"\n\nBased on the following relevant proposal information, provide a comprehensive and helpful answer:\n\n" ++
    context_info ++
    "\n\nPrevious analysis context:\n" ++ previous_analysis ++
    "\n\nPlease provide a detailed, accurate response that directly addresses the user's question."

/-- The per-document context block built in `_interactive_loop_node`. -/
def context_block (doc : RetrievedDoc) : String :=
  "Proposal: " ++ doc.title ++
    "\n                Content: " ++ doc.page_content ++
    "...\n                Budget: $" ++ toString doc.budget ++
    "\n                Timeline: " ++ toString doc.timeline_months ++ " months"

/-- `_interactive_loop_node`: retrieve context for the user question, ask
the generator, and on success append exactly one conversation entry and
clear the error; on any failure record it in `error_message` and leave the
history untouched.  `llm` is the external generator (fallible), `now` the
timestamp. -/
def _interactive_loop_node (llm : String → Except String String) (now : String)
    (state : ProposalAgentState) : ProposalAgentState :=
  match state.vector_store with
  | none =>
    { state with error_message := "Question processing failed: Vector store not initialized" }
  | some search =>
    let relevant_docs := search state.user_question
    let context_info := String.intercalate "\n\n" (relevant_docs.map context_block)
    let previous_analysis :=
      if state.current_analysis.length > 500 then
        pySlice state.current_analysis 500 ++ "..."
      else state.current_analysis
    let response_prompt := question_template state.user_question context_info previous_analysis
    match llm response_prompt with
    | .error e => { state with error_message := "Question processing failed: " ++ e }
    | .ok response =>
      { state with
          conversation_history := state.conversation_history ++
            [{ timestamp := now, question := state.user_question, response := response,
               relevant_proposals := relevant_docs.map (·.title) }],
          error_message := "" }

/-- `ask_question`: store the question in the state and run the
interactive loop node. -/
def ask_question (llm : String → Except String String) (now : String)
    (state : ProposalAgentState) (question : String) : ProposalAgentState :=
  _interactive_loop_node llm now { state with user_question := question }

/-- The fixed exit-keyword set of `_decision_node`. -/
def exit_keywords : List String := ["exit", "quit", "end", "stop", "bye", "goodbye"]

/-- `_decision_node`: end on a recorded error, on a cleared continue flag,
or on an exit keyword occurring in the (truthy) user question. -/
def _decision_node (state : ProposalAgentState) : String :=
  if state.error_message ≠ "" then "end"
  else if !state.continue_conversation then "end"
  else if state.user_question ≠ "" ∧
      (exit_keywords.any (fun k => py_in k (pyLower state.user_question))) = true then "end"
  else "continue"

/-!  ## Action-item deriver (`backend/services/rfp_optimization_agent.py`)  -/

/-- The shared dimension-analysis fields of `RFPDimensionAnalysis`
(`schemas.py`); only `recommendations` is read by the deriver. -/
structure RFPDimensionAnalysis where
  score : ℤ
  assessment : String
  key_findings : List String
  recommendations : List String
deriving Repr, DecidableEq

/-- `RFPOptimizationAnalysis` (`schemas.py`), restricted to the fields the
deriver reads; timestamps and the implementation timeline are carried by
the schema but never read by `generate_action_items`. -/
structure RFPOptimizationAnalysis where
  analysis_id : String
  rfp_document_id : String
  overall_score : ℤ
  max_score : ℤ
  timeline_feasibility : RFPDimensionAnalysis
  requirements_clarity : RFPDimensionAnalysis
  cost_flexibility : RFPDimensionAnalysis
  tco_analysis : RFPDimensionAnalysis
  priority_actions : List String
  executive_summary : String
deriving Repr, DecidableEq

/-- `RFPActionItem` (`schemas.py`); the `id` (a fresh `uuid4`) and the
timestamp fields are external nondeterminism and are not modelled. -/
structure RFPActionItem where
  title : String
  description : String
  priority : String
  dimension : String
  completed : Bool
deriving Repr, DecidableEq

/-- ASCII letter test, for `str.title()`. -/
def isAsciiLetter (c : Char) : Bool :=
  (65 ≤ c.toNat && c.toNat ≤ 90) || (97 ≤ c.toNat && c.toNat ≤ 122)

/-- ASCII upper-casing of one character. -/
def upperChar (c : Char) : Char :=
  if 97 ≤ c.toNat ∧ c.toNat ≤ 122 then Char.ofNat (c.toNat - 32) else c

/-- Worker for `pyTitle`, tracking whether the previous character was a
letter. -/
def titleAux : Bool → List Char → List Char
  | _, [] => []
  | prevAlpha, c :: cs =>
    (if isAsciiLetter c then (if prevAlpha then lowerChar c else upperChar c) else c) ::
      titleAux (isAsciiLetter c) cs

/-- Model of Python `str.title()` (ASCII range). -/
def pyTitle (s : String) : String := ⟨titleAux false s.data⟩

/-- The action item built for one dimension recommendation. -/
def dimension_item (dimension_name recommendation : String) : RFPActionItem :=
  { title := pyTitle dimension_name ++ " Optimization: " ++ pySlice recommendation 50 ++ "...",
    description := recommendation,
    priority := "short_term",
    dimension := dimension_name,
    completed := false }

/-- The action item built for one top-level priority action. -/
def priority_item (i : ℕ) (priority_action : String) : RFPActionItem :=
  { title := "Priority Action " ++ toString (i + 1) ++ ": " ++ pySlice priority_action 50 ++ "...",
    description := priority_action,
    priority := "immediate",
    dimension := "general",
    completed := false }

/-- `generate_action_items`: append one `short_term` item per dimension
recommendation, dimensions in the fixed source order, then one `immediate`
item per priority action. -/
def generate_action_items (analysis : RFPOptimizationAnalysis) : List RFPActionItem :=
  let dimensions := [("timeline", analysis.timeline_feasibility),
                     ("requirements", analysis.requirements_clarity),
                     ("cost", analysis.cost_flexibility),
                     ("tco", analysis.tco_analysis)]
  let action_items : List RFPActionItem := []
  let action_items := dimensions.foldl (fun acc d =>
    d.2.recommendations.foldl (fun acc2 recommendation =>
      acc2 ++ [dimension_item d.1 recommendation]) acc) action_items
  analysis.priority_actions.enum.foldl (fun acc ip =>
    acc ++ [priority_item ip.1 ip.2]) action_items

/-!  ## Claim-specific inputs and derived quantities  -/

/-- The missing technical categories of an RFP/proposal pair, as the
specification describes them: categories with a keyword match in the RFP
content but none in the proposal content. -/
def missingTechnicalCategories (rfp prop : DocData) : List String :=
  (technical_keywords.filter (fun ck =>
    categoryMissing (pyLower rfp.content) (pyLower prop.content) ck.2)).map (·.1)

/-- The boundary-scenario RFP: budget 120000, timeline 6 months. -/
def c6_rfp : DocData := ⟨120000, 6, ""⟩

/-- The boundary-scenario proposal: budget 180000, timeline 8 months. -/
def c6_proposal : DocData := ⟨180000, 8, ""⟩

/-- Two concrete proposals exercising the parser fallback. -/
def w3_proposals : List Proposal :=
  [⟨"p1", "Proposal: Acme Corp", "content a", 100000, 6, "tech"⟩,
   ⟨"p2", "", "content b", 120000, 7, "tech"⟩]

/-- A concrete always-succeeding generator. -/
def w8_llm : String → Except String String := fun _ => .ok "Here is the answer."

/-- A concrete always-failing generator. -/
def w8_llm_fail : String → Except String String := fun _ => .error "model timeout"

/-- A concrete (empty-result) similarity search. -/
def w8_search : String → List RetrievedDoc := fun _ => []

/-- A concrete post-setup session state with an empty history. -/
def w8_state : ProposalAgentState :=
  { proposals := [], vector_store := some w8_search, current_analysis := "",
    structured_analysis := none, user_question := "", conversation_history := [],
    continue_conversation := true, error_message := "", session_id := "session-1" }

/-- A concrete session state whose question contains `goodbye` while the
continue flag is still set. -/
def c4_state : ProposalAgentState :=
  { proposals := [], vector_store := none, current_analysis := "",
    structured_analysis := none, user_question := "ok, goodbye for now",
    conversation_history := [], continue_conversation := true, error_message := "",
    session_id := "s" }

/-!  ## Theorems  -/

/-- `int()` truncation agrees with the floor on non-negative values. -/
theorem pyInt_eq_floor (q : ℚ) (h : 0 ≤ q) : pyInt q = ⌊q⌋ := if_pos h

/-- The budget sub-score is non-negative in every branch. -/
lemma budget_score_nonneg (r p : DocData) : 0 ≤ (_analyze_budget_alignment r p).1 := by
  simp only [_analyze_budget_alignment]
  split_ifs <;> simp

/-- The timeline sub-score is non-negative in every branch. -/
lemma timeline_score_nonneg (r p : DocData) : 0 ≤ (_analyze_timeline_alignment r p).1 := by
  simp only [_analyze_timeline_alignment]
  split_ifs <;> simp

/-- The technical sub-score is non-negative in every branch. -/
lemma technical_score_nonneg (r p : DocData) : 0 ≤ (_analyze_technical_alignment r p).1 := by
  simp only [_analyze_technical_alignment]
  split_ifs <;> simp

/-- The scope sub-score is non-negative in every branch. -/
lemma scope_score_nonneg (r p : DocData) : 0 ≤ (_analyze_scope_alignment r p).1 := by
  simp only [_analyze_scope_alignment]
  split_ifs <;> simp

/-- Claim C1 (amended): with both budgets nonzero and
`ratio = proposal.budget / rfp.budget`, the budget sub-scorer emits exactly
one budget mismatch when `ratio > 1.2` (severity `high` iff `ratio > 1.5`,
else `medium`) with score `max(20, 100 - int((ratio-1)*100))`, exactly one
`medium` budget mismatch when `ratio < 0.5` with score
`max(60, 100 - int((1-ratio)*50))`, and otherwise score 100 with no
mismatch — where `int` truncates toward zero (the claim's `round` does not
match the code, see the counterexample). -/
theorem budget_subscorer_amended (rfp prop : DocData)
    (h1 : rfp.budget ≠ 0) (h2 : prop.budget ≠ 0) :
    (prop.budget / rfp.budget > 1.2 →
      (_analyze_budget_alignment rfp prop).1 =
        max 20 (100 - pyInt ((prop.budget / rfp.budget - 1) * 100)) ∧
      (_analyze_budget_alignment rfp prop).2.map (fun m => (m.type, m.severity)) =
        [("budget", if prop.budget / rfp.budget > 1.5 then "high" else "medium")]) ∧
    (prop.budget / rfp.budget < 0.5 →
      (_analyze_budget_alignment rfp prop).1 =
        max 60 (100 - pyInt ((1 - prop.budget / rfp.budget) * 50)) ∧
      (_analyze_budget_alignment rfp prop).2.map (fun m => (m.type, m.severity)) =
        [("budget", "medium")]) ∧
    (0.5 ≤ prop.budget / rfp.budget → prop.budget / rfp.budget ≤ 1.2 →
      _analyze_budget_alignment rfp prop = (100, [])) := by
  have hg : ¬(rfp.budget = 0 ∨ prop.budget = 0) := not_or.mpr ⟨h1, h2⟩
  unfold _analyze_budget_alignment
  rw [if_neg hg]
  refine ⟨fun hgt => ?_, fun hlt => ?_, fun hge hle => ?_⟩
  · rw [if_pos hgt]
    exact ⟨rfl, rfl⟩
  · have hn : ¬(prop.budget / rfp.budget > 1.2) := by
      intro h
      have : (0.5 : ℚ) < 1.2 := by norm_num
      linarith
    rw [if_neg hn, if_pos hlt]
    exact ⟨rfl, rfl⟩
  · rw [if_neg (not_lt.mpr hle), if_neg (not_lt.mpr hge)]

/-- Witness for claim C1's amended theorem at RFP budget 100, proposal
budget 150 (`ratio = 1.5`, the severity boundary). -/
theorem budget_subscorer_amended_witness :
    (_analyze_budget_alignment ⟨100, 0, ""⟩ ⟨150, 0, ""⟩).1 =
      max 20 (100 - pyInt (((150 : ℚ) / 100 - 1) * 100)) ∧
    ((_analyze_budget_alignment ⟨100, 0, ""⟩ ⟨150, 0, ""⟩).2.map
      (fun m => (m.type, m.severity))) =
      [("budget", if (150 : ℚ) / 100 > 1.5 then "high" else "medium")] :=
  (budget_subscorer_amended ⟨100, 0, ""⟩ ⟨150, 0, ""⟩ (by decide) (by decide)).1
    (by norm_num)

/-- Counterexample to claim C1 as stated: with budgets 1000/1256
(`ratio = 1.256`) the code scores `100 - int(25.6) = 75` while the claim's
`max(20, 100 - round((ratio-1)*100))` gives 74; with budgets 1000/250
(`ratio = 0.25`) the code scores `100 - int(37.5) = 63` while the claim's
`max(60, 100 - round((1-ratio)*50))` gives 62. -/
theorem budget_round_counterexample :
    (_analyze_budget_alignment ⟨1000, 0, ""⟩ ⟨1256, 0, ""⟩).1 = 75 ∧
      max 20 (100 - round ((((1256 : ℚ) / 1000) - 1) * 100)) = 74 ∧
    (_analyze_budget_alignment ⟨1000, 0, ""⟩ ⟨250, 0, ""⟩).1 = 63 ∧
      max 60 (100 - round ((1 - ((250 : ℚ) / 1000)) * 50)) = 62 := by
  refine ⟨?_, ?_, ?_, ?_⟩
  · norm_num [_analyze_budget_alignment, pyInt, max_def]
  · rw [round_eq]; norm_num [max_def]
  · norm_num [_analyze_budget_alignment, pyInt, max_def]
  · rw [round_eq]; norm_num [max_def]

/-- Claim C2: the overall alignment score is the integer mean of the four
sub-scores with the fractional part truncated, i.e. the floor of their
mean (truncation equals floor because all sub-scores are non-negative). -/
theorem overall_truncated_mean (rfp prop : DocData) :
    (analyze_proposal_alignment rfp prop).overall_alignment_score =
      ⌊(((analyze_proposal_alignment rfp prop).budget_alignment +
         (analyze_proposal_alignment rfp prop).timeline_alignment +
         (analyze_proposal_alignment rfp prop).technical_alignment +
         (analyze_proposal_alignment rfp prop).scope_alignment : ℤ) : ℚ) / 4⌋ := by
  simp only [analyze_proposal_alignment]
  apply pyInt_eq_floor
  apply div_nonneg _ (by norm_num)
  have h1 := budget_score_nonneg rfp prop
  have h2 := timeline_score_nonneg rfp prop
  have h3 := technical_score_nonneg rfp prop
  have h4 := scope_score_nonneg rfp prop
  have hs : (0 : ℤ) ≤ (_analyze_budget_alignment rfp prop).1 +
      (_analyze_timeline_alignment rfp prop).1 +
      (_analyze_technical_alignment rfp prop).1 +
      (_analyze_scope_alignment rfp prop).1 := by linarith
  exact_mod_cast hs

/-- Every budget-sub-scorer mismatch has type `budget` and severity
`medium` or `high`. -/
lemma budget_mismatch_fields (r p : DocData) (m : RFPMismatch)
    (hm : m ∈ (_analyze_budget_alignment r p).2) :
    m.type = "budget" ∧ (m.severity = "medium" ∨ m.severity = "high") := by
  simp only [_analyze_budget_alignment] at hm
  split_ifs at hm <;> simp at hm <;> exact hm ▸ ⟨rfl, by simp⟩

/-- Every timeline-sub-scorer mismatch has type `timeline` and severity
`medium` or `high`. -/
lemma timeline_mismatch_fields (r p : DocData) (m : RFPMismatch)
    (hm : m ∈ (_analyze_timeline_alignment r p).2) :
    m.type = "timeline" ∧ (m.severity = "medium" ∨ m.severity = "high") := by
  simp only [_analyze_timeline_alignment] at hm
  split_ifs at hm <;> simp at hm <;> exact hm ▸ ⟨rfl, by simp⟩

/-- Every technical-sub-scorer mismatch has type `technical` and severity
`high`. -/
lemma technical_mismatch_fields (r p : DocData) (m : RFPMismatch)
    (hm : m ∈ (_analyze_technical_alignment r p).2) :
    m.type = "technical" ∧ m.severity = "high" := by
  simp only [_analyze_technical_alignment, List.mem_map] at hm
  obtain ⟨c, _, rfl⟩ := hm
  exact ⟨rfl, rfl⟩

/-- Every scope-sub-scorer mismatch has type `scope` and severity
`medium`. -/
lemma scope_mismatch_fields (r p : DocData) (m : RFPMismatch)
    (hm : m ∈ (_analyze_scope_alignment r p).2) :
    m.type = "scope" ∧ m.severity = "medium" := by
  simp only [_analyze_scope_alignment, List.mem_map] at hm
  obtain ⟨c, _, rfl⟩ := hm
  exact ⟨rfl, rfl⟩

/-- Every mismatch of the full analysis comes from one of the four
sub-scorers. -/
lemma mem_mismatches_cases (r p : DocData) (m : RFPMismatch)
    (hm : m ∈ (analyze_proposal_alignment r p).mismatches) :
    m ∈ (_analyze_budget_alignment r p).2 ∨ m ∈ (_analyze_timeline_alignment r p).2 ∨
    m ∈ (_analyze_technical_alignment r p).2 ∨ m ∈ (_analyze_scope_alignment r p).2 := by
  simp only [analyze_proposal_alignment, List.mem_append] at hm
  tauto

/-- Claim C10: every emitted mismatch has severity `medium` or `high`
(never `low` or `critical`), so the alignment summary's critical-issues
clause is unreachable: the appended count clause, when present, counts
high-severity mismatches only. -/
theorem severities_medium_high (rfp prop : DocData) :
    ((analyze_proposal_alignment rfp prop).mismatches.all
      (fun m => m.severity == "medium" || m.severity == "high")) = true ∧
    (analyze_proposal_alignment rfp prop).alignment_summary =
      summaryBand (analyze_proposal_alignment rfp prop).overall_alignment_score ++
        (if ((analyze_proposal_alignment rfp prop).mismatches.filter
             (fun m => m.severity == "high")).isEmpty then ""
         else " " ++ toString ((analyze_proposal_alignment rfp prop).mismatches.filter
             (fun m => m.severity == "high")).length ++ " high-priority issue(s) identified.") := by
  have hall : ∀ m ∈ (analyze_proposal_alignment rfp prop).mismatches,
      m.severity = "medium" ∨ m.severity = "high" := by
    intro m hm
    rcases mem_mismatches_cases rfp prop m hm with h | h | h | h
    · exact (budget_mismatch_fields rfp prop m h).2
    · exact (timeline_mismatch_fields rfp prop m h).2
    · exact Or.inr (technical_mismatch_fields rfp prop m h).2
    · exact Or.inl (scope_mismatch_fields rfp prop m h).2
  constructor
  · rw [List.all_eq_true]
    intro m hm
    rcases hall m hm with h | h <;> simp [h]
  · have hcrit : (analyze_proposal_alignment rfp prop).mismatches.filter
        (fun m => m.severity == "critical") = [] := by
      rw [List.filter_eq_nil_iff]
      intro m hm
      rcases hall m hm with h | h <;> simp [h]
    conv_lhs => rw [show (analyze_proposal_alignment rfp prop).alignment_summary =
      _generate_alignment_summary
        (analyze_proposal_alignment rfp prop).overall_alignment_score
        (analyze_proposal_alignment rfp prop).mismatches from rfl]
    rw [_generate_alignment_summary, hcrit]
    by_cases hh : ((analyze_proposal_alignment rfp prop).mismatches.filter
        (fun m => m.severity == "high")).isEmpty <;>
      simp [hh, String.append_assoc]

/-- Claim C5: the technical sub-scorer emits exactly one high-severity
technical mismatch per category mentioned in the RFP content but absent
from the proposal content, and scores 100 when none is missing, else
`max(20, 100 - 20 * missing_count)`. -/
theorem technical_subscorer_spec (rfp prop : DocData) :
    (_analyze_technical_alignment rfp prop).2.length =
      (missingTechnicalCategories rfp prop).length ∧
    ((_analyze_technical_alignment rfp prop).2.all
      (fun m => m.type == "technical" && m.severity == "high")) = true ∧
    (_analyze_technical_alignment rfp prop).1 =
      (if (missingTechnicalCategories rfp prop).length = 0 then 100
       else max 20 (100 - 20 * ((missingTechnicalCategories rfp prop).length : ℤ))) := by
  refine ⟨?_, ?_, ?_⟩
  · simp [_analyze_technical_alignment, missingTechnicalCategories]
  · rw [List.all_eq_true]
    intro m hm
    have h := technical_mismatch_fields rfp prop m hm
    simp [h.1, h.2]
  · simp only [_analyze_technical_alignment, missingTechnicalCategories]
    by_cases hl : ((technical_keywords.filter (fun ck =>
        categoryMissing (pyLower rfp.content) (pyLower prop.content) ck.2)).map (·.1)).length = 0
    · simp [List.isEmpty_iff_length_eq_zero, hl]
    · rw [if_neg hl]
      have hne : ¬ ((technical_keywords.filter (fun ck =>
          categoryMissing (pyLower rfp.content) (pyLower prop.content) ck.2)).map (·.1)).isEmpty = true := by
        simpa [List.isEmpty_iff_length_eq_zero] using hl
      rw [if_neg hne]
      ring_nf

/-- Claim C6: on the boundary scenario (RFP budget 120000, timeline 6;
proposal budget 180000, timeline 8) the analysis yields a `medium` budget
mismatch (ratio exactly 1.5 is not `> 1.5`) with budget score 50, and a
`medium` timeline mismatch with timeline score 74. -/
theorem boundary_scenario :
    (analyze_proposal_alignment c6_rfp c6_proposal).budget_alignment = 50 ∧
    (analyze_proposal_alignment c6_rfp c6_proposal).timeline_alignment = 74 ∧
    (analyze_proposal_alignment c6_rfp c6_proposal).mismatches.map
      (fun m => (m.type, m.severity)) = [("budget", "medium"), ("timeline", "medium")] := by
  have hb1 : (_analyze_budget_alignment c6_rfp c6_proposal).1 = 50 := by
    norm_num [_analyze_budget_alignment, c6_rfp, c6_proposal, pyInt, max_def]
  have hb2 : (_analyze_budget_alignment c6_rfp c6_proposal).2.map
      (fun m => (m.type, m.severity)) = [("budget", "medium")] := by
    norm_num [_analyze_budget_alignment, c6_rfp, c6_proposal]
  have ht1 : (_analyze_timeline_alignment c6_rfp c6_proposal).1 = 74 := by
    norm_num [_analyze_timeline_alignment, c6_rfp, c6_proposal, pyInt, max_def]
  have ht2 : (_analyze_timeline_alignment c6_rfp c6_proposal).2.map
      (fun m => (m.type, m.severity)) = [("timeline", "medium")] := by
    norm_num [_analyze_timeline_alignment, c6_rfp, c6_proposal]
  have htech : _analyze_technical_alignment c6_rfp c6_proposal = (100, []) := rfl
  have hsc : _analyze_scope_alignment c6_rfp c6_proposal = (100, []) := rfl
  refine ⟨?_, ?_, ?_⟩
  · simpa only [analyze_proposal_alignment] using hb1
  · simpa only [analyze_proposal_alignment] using ht1
  · simp only [analyze_proposal_alignment, htech, hsc, List.map_append, hb2, ht2]
    simp

/-- Claim C7: the zero-guards make `analyze` total — a zero budget
(respectively timeline) on either side short-circuits the corresponding
sub-scorer to the neutral score 50 with no mismatch of that type, and with
both budgets zero the full analysis reports budget score 50 and no
`budget` mismatch. -/
theorem neutral_guards (rfp prop : DocData) :
    ((rfp.budget = 0 ∨ prop.budget = 0) →
      _analyze_budget_alignment rfp prop = (50, [])) ∧
    ((rfp.timeline_months = 0 ∨ prop.timeline_months = 0) →
      _analyze_timeline_alignment rfp prop = (50, [])) ∧
    (rfp.budget = 0 → prop.budget = 0 →
      (analyze_proposal_alignment rfp prop).budget_alignment = 50 ∧
      ((analyze_proposal_alignment rfp prop).mismatches.all
        (fun m => !(m.type == "budget"))) = true) := by
  refine ⟨fun h => ?_, fun h => ?_, fun h1 h2 => ?_⟩
  · simp only [_analyze_budget_alignment, if_pos h]
  · simp only [_analyze_timeline_alignment, if_pos h]
  · have hb : _analyze_budget_alignment rfp prop = (50, []) := by
      simp only [_analyze_budget_alignment, if_pos (Or.inl h1)]
    constructor
    · simp only [analyze_proposal_alignment, hb]
    · rw [List.all_eq_true]
      intro m hm
      rcases mem_mismatches_cases rfp prop m hm with h | h | h | h
      · rw [hb] at h; simp at h
      · have ht := (timeline_mismatch_fields rfp prop m h).1; simp [ht]
      · have ht := (technical_mismatch_fields rfp prop m h).1; simp [ht]
      · have ht := (scope_mismatch_fields rfp prop m h).1; simp [ht]

/-- Witness for claim C7's theorem with both budgets and both timelines
zero. -/
theorem neutral_guards_witness :
    _analyze_budget_alignment ⟨0, 0, ""⟩ ⟨0, 0, ""⟩ = (50, []) ∧
    _analyze_timeline_alignment ⟨0, 0, ""⟩ ⟨0, 0, ""⟩ = (50, []) ∧
    (analyze_proposal_alignment ⟨0, 0, ""⟩ ⟨0, 0, ""⟩).budget_alignment = 50 ∧
    ((analyze_proposal_alignment ⟨0, 0, ""⟩ ⟨0, 0, ""⟩).mismatches.all
      (fun m => !(m.type == "budget"))) = true :=
  ⟨(neutral_guards _ _).1 (Or.inl rfl), (neutral_guards _ _).2.1 (Or.inl rfl),
   ((neutral_guards _ _).2.2 rfl rfl).1, ((neutral_guards _ _).2.2 rfl rfl).2⟩

/-- The fallback structure's proposals list is one synthesized entry per
input proposal, in input order. -/
lemma jproposals_fallback (t : String) (ps : List Proposal) :
    jproposals (_create_fallback_structure t ps) =
      some (ps.enum.map fun ip => fallback_proposal_entry ip.1 ip.2) := rfl

/-- The synthesized budget score: `max(70, base - 5)`. -/
lemma jget_fallback_budget (i : ℕ) (p : Proposal) :
    jget (fallback_proposal_entry i p) "budget_score" =
      some (.jnum ((max 70 ((85 + ((i : ℤ) * 3) % 15) - 5) : ℤ) : ℚ)) := rfl

/-- The synthesized technical score: `min(100, base + 5)`. -/
lemma jget_fallback_technical (i : ℕ) (p : Proposal) :
    jget (fallback_proposal_entry i p) "technical_score" =
      some (.jnum ((min 100 ((85 + ((i : ℤ) * 3) % 15) + 5) : ℤ) : ℚ)) := rfl

/-- The synthesized timeline score: `base`. -/
lemma jget_fallback_timeline (i : ℕ) (p : Proposal) :
    jget (fallback_proposal_entry i p) "timeline_score" =
      some (.jnum ((85 + ((i : ℤ) * 3) % 15 : ℤ) : ℚ)) := rfl

/-- When the extracted substring decodes to an object with a `proposals`
list, the parser returns exactly that object. -/
lemma parse_eq_decoded (t : String) (ps : List Proposal) (j : JVal)
    (h : decodedProposalsJson t = some j) :
    _parse_structured_analysis t ps = j := by
  rcases hE : extractBraced t.data with _ | sub
  · simp only [decodedProposalsJson, hE] at h
    exact absurd h (by simp)
  · rcases hJ : json_loads sub with _ | parsed
    · simp only [decodedProposalsJson, hE, hJ] at h
      exact absurd h (by simp)
    · simp only [decodedProposalsJson, hE, hJ] at h
      by_cases hp : (jproposals parsed).isSome
      · rw [if_pos hp] at h
        simp only [_parse_structured_analysis, hE, hJ, if_pos hp]
        exact Option.some.inj h
      · rw [if_neg hp] at h
        exact absurd h (by simp)

/-- When decoding fails (or yields no `proposals` list), the parser
returns the fallback structure. -/
lemma parse_eq_fallback (t : String) (ps : List Proposal)
    (h : decodedProposalsJson t = none) :
    _parse_structured_analysis t ps = _create_fallback_structure t ps := by
  rcases hE : extractBraced t.data with _ | sub
  · simp only [_parse_structured_analysis, hE]
  · rcases hJ : json_loads sub with _ | parsed
    · simp only [_parse_structured_analysis, hE, hJ]
    · simp only [decodedProposalsJson, hE, hJ] at h
      by_cases hp : (jproposals parsed).isSome
      · rw [if_pos hp] at h
        exact absurd h (by simp)
      · simp only [_parse_structured_analysis, hE, hJ, if_neg hp]

/-- Claim C3: when the maximal brace-delimited substring of the raw text
decodes as JSON with a `proposals` list, the parser returns that decoded
object (so its proposals length is the input JSON's); otherwise it falls
back to deterministic synthesis with exactly one entry per input proposal
in input order, scored by `base = 85 + (i*3) % 15`,
`budget_score = max(70, base-5)`, `technical_score = min(100, base+5)`,
`timeline_score = base`. -/
theorem parser_roundtrip (analysis_text : String) (proposals : List Proposal)
    (hne : proposals ≠ []) :
    (∀ j, decodedProposalsJson analysis_text = some j →
      _parse_structured_analysis analysis_text proposals = j) ∧
    (decodedProposalsJson analysis_text = none →
      (jproposals (_parse_structured_analysis analysis_text proposals)).map List.length =
        some proposals.length ∧
      ∀ i, i < proposals.length →
        ((jproposals (_parse_structured_analysis analysis_text proposals)).bind
            (fun xs => xs[i]?)).bind (fun e => jget e "budget_score") =
          some (.jnum ((max 70 ((85 + ((i : ℤ) * 3) % 15) - 5) : ℤ) : ℚ)) ∧
        ((jproposals (_parse_structured_analysis analysis_text proposals)).bind
            (fun xs => xs[i]?)).bind (fun e => jget e "technical_score") =
          some (.jnum ((min 100 ((85 + ((i : ℤ) * 3) % 15) + 5) : ℤ) : ℚ)) ∧
        ((jproposals (_parse_structured_analysis analysis_text proposals)).bind
            (fun xs => xs[i]?)).bind (fun e => jget e "timeline_score") =
          some (.jnum ((85 + ((i : ℤ) * 3) % 15 : ℤ) : ℚ))) := by
  refine ⟨fun j h => parse_eq_decoded _ _ _ h, fun h => ?_⟩
  rw [parse_eq_fallback _ _ h, jproposals_fallback]
  refine ⟨by simp, fun i hi => ?_⟩
  have hidx : (proposals.enum.map fun ip => fallback_proposal_entry ip.1 ip.2)[i]? =
      some (fallback_proposal_entry i proposals[i]) := by
    simp [List.getElem?_map, List.getElem?_enum, List.getElem?_eq_getElem hi]
  rw [show ((some (proposals.enum.map fun ip => fallback_proposal_entry ip.1 ip.2)).bind
      (fun xs => xs[i]?)) = (proposals.enum.map fun ip => fallback_proposal_entry ip.1 ip.2)[i]?
    from rfl, hidx]
  exact ⟨jget_fallback_budget i (proposals.get ⟨i, hi⟩),
    jget_fallback_technical i (proposals.get ⟨i, hi⟩),
    jget_fallback_timeline i (proposals.get ⟨i, hi⟩)⟩

/-- Witness for claim C3's theorem: on the unparseable text `"not json"`
with two concrete proposals the fallback yields exactly two entries. -/
theorem parser_roundtrip_witness :
    w3_proposals ≠ [] ∧
    (jproposals (_parse_structured_analysis "not json" w3_proposals)).map List.length =
      some w3_proposals.length :=
  ⟨by decide,
   ((parser_roundtrip "not json" w3_proposals (by decide)).2 rfl).1⟩

/-- Claim C4: the decision step reports `end` exactly when an error is
recorded, the continue flag is cleared, or the (case-insensitively
lowered) question contains one of the exit keywords
`exit, quit, end, stop, bye, goodbye` as a substring. -/
theorem decision_node_spec (s : ProposalAgentState) :
    _decision_node s = "end" ↔
      (s.error_message ≠ "" ∨ s.continue_conversation = false ∨
        (exit_keywords.any (fun k => py_in k (pyLower s.user_question))) = true) := by
  have hempty : (exit_keywords.any (fun k => py_in k (pyLower ""))) = false := by decide
  unfold _decision_node
  split_ifs with h1 h2 h3
  · simp [h1]
  · simp only [Bool.not_eq_true'] at h2
    simp [h2]
  · simp [h3.2]
  · push_neg at h1
    constructor
    · intro h; exact absurd h (by decide)
    · intro h
      rcases h with h | h | h
      · exact absurd h1 h
      · rw [h] at h2; exact absurd rfl h2
      · by_cases hq : s.user_question = ""
        · rw [hq, hempty] at h; exact Bool.noConfusion h
        · exact absurd ⟨hq, h⟩ h3

/-- Witness for claim C4: a question containing `goodbye` ends the session
even with the continue flag set. -/
theorem decision_node_spec_witness : _decision_node c4_state = "end" :=
  (decision_node_spec c4_state).mpr (Or.inr (Or.inr (by decide)))

/-- A failure message with the fixed prefix is never the empty string. -/
lemma failed_message_ne (e : String) : "Question processing failed: " ++ e ≠ "" := by
  intro h
  have hlen := congrArg String.length h
  rw [String.length_append] at hlen
  have h1 : 0 < "Question processing failed: ".length := by decide
  have h0 : ("" : String).length = 0 := rfl
  rw [h0] at hlen
  omega

/-- One `ask` call only ever extends the conversation history. -/
lemma ask_question_extends (llm : String → Except String String) (now : String)
    (s : ProposalAgentState) (q : String) :
    s.conversation_history <+: (ask_question llm now s q).conversation_history := by
  unfold ask_question _interactive_loop_node
  dsimp only
  split
  · exact List.prefix_refl _
  · split
    · exact List.prefix_refl _
    · exact List.prefix_append _ _

/-- Claim C8: conversation history is append-only — a successful `ask`
appends exactly one entry (length + 1), a failed `ask` leaves the history
unchanged, the prior history is always a prefix of the new one, and over
any sequence of `ask` calls the initial history remains a prefix (so its
length is non-decreasing and entries are never removed or reordered). -/
theorem history_append_only (llm : String → Except String String) (now : String)
    (s : ProposalAgentState) (q : String) :
    s.conversation_history <+: (ask_question llm now s q).conversation_history ∧
    ((ask_question llm now s q).error_message = "" →
      (ask_question llm now s q).conversation_history.length =
        s.conversation_history.length + 1) ∧
    ((ask_question llm now s q).error_message ≠ "" →
      (ask_question llm now s q).conversation_history = s.conversation_history) ∧
    ∀ calls : List ((String → Except String String) × String × String),
      s.conversation_history <+:
        (calls.foldl (fun st c => ask_question c.1 c.2.1 st c.2.2) s).conversation_history := by
  refine ⟨ask_question_extends llm now s q, ?_, ?_, ?_⟩
  · unfold ask_question _interactive_loop_node
    dsimp only
    split
    · dsimp only; intro h; exact absurd h (by decide)
    · split
      · intro h; exact absurd h (failed_message_ne _)
      · intro _; simp
  · unfold ask_question _interactive_loop_node
    dsimp only
    split
    · intro _; rfl
    · split
      · intro _; rfl
      · intro h; exact absurd rfl h
  · intro calls
    induction calls generalizing s with
    | nil => exact List.prefix_refl _
    | cons c cs ih =>
      exact List.IsPrefix.trans (ask_question_extends c.1 c.2.1 s c.2.2)
        (ih (ask_question c.1 c.2.1 s c.2.2))

/-- Witness for claim C8: a successful concrete `ask` grows the history by
one; a failing one leaves it unchanged. -/
theorem history_append_only_witness :
    (ask_question w8_llm "t0" w8_state "What is the best proposal?").error_message = "" ∧
    (ask_question w8_llm "t0" w8_state "What is the best proposal?").conversation_history.length =
      w8_state.conversation_history.length + 1 ∧
    (ask_question w8_llm_fail "t0" w8_state "What is the best proposal?").conversation_history =
      w8_state.conversation_history :=
  ⟨rfl,
   (history_append_only w8_llm "t0" w8_state "What is the best proposal?").2.1 rfl,
   (history_append_only w8_llm_fail "t0" w8_state "What is the best proposal?").2.2.1
     (failed_message_ne "model timeout")⟩

/-- Folding item-appends over a list is the same as appending the mapped
list. -/
lemma foldl_append_map {α β : Type} (f : α → β) (l : List α) (init : List β) :
    l.foldl (fun acc x => acc ++ [f x]) init = init ++ l.map f := by
  induction l generalizing init with
  | nil => simp
  | cons a as ih => simp [ih]

/-- Claim C9: the derived action-item list is exactly one `short_term`
item per dimension recommendation, tagged with its dimension, dimensions
in the fixed order timeline, requirements, cost, tco with recommendations
in input order, followed by one `immediate` item tagged `general` per
top-level priority action in input order; no de-duplication occurs, so
the length is the sum of the input lengths. -/
theorem action_items_spec (analysis : RFPOptimizationAnalysis) :
    generate_action_items analysis =
      (analysis.timeline_feasibility.recommendations.map (fun recommendation =>
        { title := pyTitle "timeline" ++ " Optimization: " ++ pySlice recommendation 50 ++ "...",
          description := recommendation, priority := "short_term",
          dimension := "timeline", completed := false }) ++
       analysis.requirements_clarity.recommendations.map (fun recommendation =>
        { title := pyTitle "requirements" ++ " Optimization: " ++ pySlice recommendation 50 ++ "...",
          description := recommendation, priority := "short_term",
          dimension := "requirements", completed := false }) ++
       analysis.cost_flexibility.recommendations.map (fun recommendation =>
        { title := pyTitle "cost" ++ " Optimization: " ++ pySlice recommendation 50 ++ "...",
          description := recommendation, priority := "short_term",
          dimension := "cost", completed := false }) ++
       analysis.tco_analysis.recommendations.map (fun recommendation =>
        { title := pyTitle "tco" ++ " Optimization: " ++ pySlice recommendation 50 ++ "...",
          description := recommendation, priority := "short_term",
          dimension := "tco", completed := false })) ++
      analysis.priority_actions.enum.map (fun ip =>
        { title := "Priority Action " ++ toString (ip.1 + 1) ++ ": " ++ pySlice ip.2 50 ++ "...",
          description := ip.2, priority := "immediate",
          dimension := "general", completed := false }) ∧
    (generate_action_items analysis).length =
      (analysis.timeline_feasibility.recommendations.length +
       analysis.requirements_clarity.recommendations.length +
       analysis.cost_flexibility.recommendations.length +
       analysis.tco_analysis.recommendations.length) +
      analysis.priority_actions.length := by
  have heq : generate_action_items analysis =
      ((([] ++ analysis.timeline_feasibility.recommendations.map (dimension_item "timeline")) ++
        analysis.requirements_clarity.recommendations.map (dimension_item "requirements") ++
        analysis.cost_flexibility.recommendations.map (dimension_item "cost") ++
        analysis.tco_analysis.recommendations.map (dimension_item "tco")) ++
       analysis.priority_actions.enum.map (fun ip => priority_item ip.1 ip.2)) := by
    unfold generate_action_items
    dsimp only
    rw [List.foldl_cons, List.foldl_cons, List.foldl_cons, List.foldl_cons, List.foldl_nil]
    rw [foldl_append_map, foldl_append_map, foldl_append_map, foldl_append_map, foldl_append_map]
  constructor
  · rw [heq]
    simp only [List.nil_append, List.append_assoc]
    rfl
  · rw [heq]
    simp [List.length_append, List.length_map]
    omega
